import Mathlib

/-!
Verification of the robottelo automation core against its specification.

Shallow embedding of the decision logic of the sampled sources:
the RHCI deployment-wizard pages and their long-running completion retry
loop (robottelo/ui/rhci.py), dynamic locator interpolation (rhci.py,
interp_loc), the content page-object layer (lib/content.py), the GPGKey
CLI wrapper (robottelo/cli/gpgkey.py) and the data factory
(robottelo/datafactory.py).

Browser and CLI effects are modelled by oracles (functions supplied as
arguments) describing the outcome of each external interaction, and each
operation is embedded as a pure function that returns the sequence of
interaction events it performs together with its result.
-/

namespace Robottelo

/-! ### The review-deployment polling loop, robottelo/ui/rhci.py lines 241-264

`RHCI._page_review_deployment` clicks the deploy control, then polls: for
`__ in range(240)`: `sleep(90)`; try to click `rhci.next` and break on
success; on any failure run an inner loop that calls `browser.refresh()`
up to 40 times, sleeping 15 seconds after each failed refresh.  When the
`for` completes without `break`, its `else` clause raises
`Exception('Next button never became available to click')`.

The oracles: `clickOk i` tells whether the click of the completion control
succeeds on outer attempt `i` (`false` = the click raised and the bare
`except:` caught it); `refreshOk k` tells whether the k-th refresh call of
the whole run succeeds. -/

/-- An observable interaction of the review-deployment loop. -/
inductive Ev
  | sleep (secs : Nat)
  | clickDeploy
  | clickNext
  | refresh
  | raiseExhausted
deriving DecidableEq

def isClickNext : Ev → Bool
  | Ev.clickNext => true
  | _ => false

def isRefreshEv : Ev → Bool
  | Ev.refresh => true
  | _ => false

def isRaiseEv : Ev → Bool
  | Ev.raiseExhausted => true
  | _ => false

/-- A 15-second sleep: the backoff after a failed refresh. -/
def isSleep15 : Ev → Bool
  | Ev.sleep s => s == 15
  | _ => false

/-- The message of the exhausted-budget error raised by the loop's
`for ... else` clause (rhci.py line 264). -/
def exhaustedMsg : String := "Next button never became available to click"

/-- Failures that can surface from the UI layer: the explicitly raised
exhausted-retry error, and the element-not-found failure class raised by
the driver when a locator matches nothing. -/
inductive UiError
  | exhausted (msg : String)
  | noSuchElement
deriving DecidableEq

/-- The inner refresh-retry loop (rhci.py lines 253-262):
`success = False; attempts = 0; while attempts < 40 and not success:`
try `browser.refresh()` and set `success`, on failure `sleep(15)` and
increment `attempts`.  `fuel` is the number of attempts still allowed
(`40 - attempts`), `k` the index of the next refresh call in the run's
global refresh-outcome sequence.  Returns the events performed and the
next unconsumed refresh index. -/
def refreshLoopAux (refreshOk : Nat → Bool) : Nat → Nat → List Ev × Nat
  | 0, k => ([], k)
  | fuel + 1, k =>
    if refreshOk k then ([Ev.refresh], k + 1)
    else
      let p := refreshLoopAux refreshOk fuel (k + 1)
      (Ev.refresh :: Ev.sleep 15 :: p.1, p.2)

/-- The inner loop entered with `attempts = 0`: at most 40 refresh calls. -/
def refreshLoop (refreshOk : Nat → Bool) (k : Nat) : List Ev × Nat :=
  refreshLoopAux refreshOk 40 k

/-- The outer polling loop (rhci.py lines 247-264).  `fuel` is the number
of outer attempts still allowed (240 at entry), `i` the index of the
current attempt, `k` the next refresh index.  Each attempt sleeps 90
seconds and tries to click the completion control; on failure the inner
refresh loop runs and polling continues.  Exhausting the fuel is the
`for ... else` path: the named error is raised. -/
def reviewLoopAux (clickOk refreshOk : Nat → Bool) : Nat → Nat → Nat → List Ev × Except UiError Unit
  | 0, _, _ => ([Ev.raiseExhausted], Except.error (UiError.exhausted exhaustedMsg))
  | fuel + 1, i, k =>
    if clickOk i then ([Ev.sleep 90, Ev.clickNext], Except.ok ())
    else
      let p := refreshLoop refreshOk k
      let q := reviewLoopAux clickOk refreshOk fuel (i + 1) p.2
      (Ev.sleep 90 :: Ev.clickNext :: p.1 ++ q.1, q.2)

/-- `RHCI._page_review_deployment`: click the deploy control (timeout 300,
not modelled further), then poll with a budget of 240 outer attempts. -/
def page_review_deployment (clickOk refreshOk : Nat → Bool) : List Ev × Except UiError Unit :=
  let p := reviewLoopAux clickOk refreshOk 240 0 0
  (Ev.clickDeploy :: p.1, p.2)

/-- The inner refresh loop performs no click attempts and raises nothing:
any event predicate false on sleeps and refreshes counts zero there. -/
theorem refreshLoopAux_countP_zero (p : Ev → Bool) (hs : ∀ s, p (Ev.sleep s) = false)
    (hr : p Ev.refresh = false) (r : Nat → Bool) :
    ∀ fuel k, List.countP p (refreshLoopAux r fuel k).1 = 0 := by
  intro fuel
  induction fuel with
  | zero => intro k; simp [refreshLoopAux]
  | succ n ih =>
    intro k
    cases hrk : r k <;>
      simp [refreshLoopAux, hrk, List.countP_cons, hs, hr, ih (k + 1)]

/-- The inner refresh loop calls `browser.refresh()` at most `fuel` times. -/
theorem refreshLoopAux_refresh_le (r : Nat → Bool) :
    ∀ fuel k, List.countP isRefreshEv (refreshLoopAux r fuel k).1 ≤ fuel := by
  intro fuel
  induction fuel with
  | zero => intro k; simp [refreshLoopAux]
  | succ n ih =>
    intro k
    cases hrk : r k
    · have h := ih (k + 1)
      simp [refreshLoopAux, hrk, List.countP_cons, isRefreshEv, isSleep15]
      omega
    · simp [refreshLoopAux, hrk, List.countP_cons, isRefreshEv]

/-- Each failed refresh is followed by one 15-second backoff sleep, so the
inner loop never sleeps more often than it refreshes. -/
theorem refreshLoopAux_sleep_le_refresh (r : Nat → Bool) :
    ∀ fuel k, List.countP isSleep15 (refreshLoopAux r fuel k).1 ≤
      List.countP isRefreshEv (refreshLoopAux r fuel k).1 := by
  intro fuel
  induction fuel with
  | zero => intro k; simp [refreshLoopAux]
  | succ n ih =>
    intro k
    cases hrk : r k
    · have h := ih (k + 1)
      simp [refreshLoopAux, hrk, List.countP_cons, isRefreshEv, isSleep15]
      omega
    · simp [refreshLoopAux, hrk, List.countP_cons, isRefreshEv, isSleep15]

/-- One failed outer attempt: a 90-second sleep, a failed click of the
completion control, one inner refresh run, then the rest of the polling. -/
theorem reviewLoopAux_step (c r : Nat → Bool) (fuel i k : Nat) (h : c i = false) :
    reviewLoopAux c r (fuel + 1) i k =
      (Ev.sleep 90 :: Ev.clickNext :: (refreshLoop r k).1 ++
         (reviewLoopAux c r fuel (i + 1) (refreshLoop r k).2).1,
       (reviewLoopAux c r fuel (i + 1) (refreshLoop r k).2).2) := by
  simp [reviewLoopAux, h]

/-- When the completion control never becomes clickable, the outer loop
runs its whole fuel, attempts one click per outer iteration, and ends in
the single explicitly raised exhausted-budget error. -/
theorem reviewLoopAux_all_fail (c r : Nat → Bool) (hc : ∀ i, c i = false) :
    ∀ fuel i k,
      (reviewLoopAux c r fuel i k).2 = Except.error (UiError.exhausted exhaustedMsg) ∧
      List.countP isRaiseEv (reviewLoopAux c r fuel i k).1 = 1 ∧
      List.countP isClickNext (reviewLoopAux c r fuel i k).1 = fuel := by
  intro fuel
  induction fuel with
  | zero =>
    intro i k
    simp [reviewLoopAux, List.countP_cons, isRaiseEv, isClickNext]
  | succ n ih =>
    intro i k
    have h1 : List.countP isRaiseEv (refreshLoop r k).1 = 0 :=
      refreshLoopAux_countP_zero isRaiseEv (fun _ => rfl) rfl r 40 k
    have h2 : List.countP isClickNext (refreshLoop r k).1 = 0 :=
      refreshLoopAux_countP_zero isClickNext (fun _ => rfl) rfl r 40 k
    obtain ⟨h3a, h3b, h3c⟩ := ih (i + 1) (refreshLoop r k).2
    rw [reviewLoopAux_step c r n i k (hc i)]
    refine ⟨h3a, ?_, ?_⟩
    · simp [List.countP_cons, List.countP_append, isRaiseEv, h1, h3b]
    · simp [List.countP_cons, List.countP_append, isClickNext, h2, h3c]

/-- C1: if the click of the completion control fails on all 240 outer
polling attempts (and each inner refresh run eventually succeeds within
its 40-call budget), `_page_review_deployment` raises the named fatal
error exactly once, after exactly 240 outer attempts, and that error is
distinct from an element-not-found failure. -/
theorem c1_exhausted_after_240_attempts (c r : Nat → Bool)
    (hc : ∀ i, c i = false)
    (hr : ∀ k, ∃ j, j < 40 ∧ r (k + j) = true) :
    (page_review_deployment c r).2 = Except.error (UiError.exhausted exhaustedMsg) ∧
    List.countP isRaiseEv (page_review_deployment c r).1 = 1 ∧
    List.countP isClickNext (page_review_deployment c r).1 = 240 ∧
    UiError.exhausted exhaustedMsg ≠ UiError.noSuchElement := by
  have h := reviewLoopAux_all_fail c r hc 240 0 0
  refine ⟨h.1, ?_, ?_, by simp⟩
  · simpa [page_review_deployment, List.countP_cons, isRaiseEv] using h.2.1
  · simpa [page_review_deployment, List.countP_cons, isClickNext] using h.2.2

/-- The completion control never becomes clickable. -/
def clickNever : Nat → Bool := fun _ => false

/-- Every refresh call succeeds at once. -/
def refreshAlways : Nat → Bool := fun _ => true

theorem c1_witness :
    (page_review_deployment clickNever refreshAlways).2 =
      Except.error (UiError.exhausted exhaustedMsg) ∧
    List.countP isRaiseEv (page_review_deployment clickNever refreshAlways).1 = 1 ∧
    List.countP isClickNext (page_review_deployment clickNever refreshAlways).1 = 240 ∧
    UiError.exhausted exhaustedMsg ≠ UiError.noSuchElement :=
  c1_exhausted_after_240_attempts clickNever refreshAlways (fun _ => rfl)
    (fun _ => ⟨0, by omega, rfl⟩)

/-- A refresh-outcome sequence of 5 failures followed by successes. -/
def refreshFail5 : Nat → Bool := fun k => decide (5 ≤ k)

/-- C2: the view refresh is retried at most 40 times per inner run, with a
15-second sleep after each failed refresh; given the refresh-outcome
sequence `[fail]*5 ++ [success]` while the completion control stays
absent, the inner run performs exactly 5 failed refresh retries (the
explicit 11-event trace alternates a refresh call with a 15-second
backoff five times before the succeeding sixth call), after which the
outer polling loop goes on to its next attempt (a further 90-second sleep
and click attempt follow the inner run in the full trace). -/
theorem c2_refresh_retry_budget :
    (∀ r k, List.countP isRefreshEv (refreshLoop r k).1 ≤ 40 ∧
       List.countP isSleep15 (refreshLoop r k).1 ≤
         List.countP isRefreshEv (refreshLoop r k).1) ∧
    (refreshLoop refreshFail5 0).1 =
      [Ev.refresh, Ev.sleep 15, Ev.refresh, Ev.sleep 15, Ev.refresh, Ev.sleep 15,
       Ev.refresh, Ev.sleep 15, Ev.refresh, Ev.sleep 15, Ev.refresh] ∧
    List.countP isSleep15 (refreshLoop refreshFail5 0).1 = 5 ∧
    (∃ rest, (page_review_deployment clickNever refreshFail5).1 =
      [Ev.clickDeploy, Ev.sleep 90, Ev.clickNext] ++ (refreshLoop refreshFail5 0).1 ++
        [Ev.sleep 90, Ev.clickNext] ++ rest) := by
  refine ⟨fun r k => ⟨refreshLoopAux_refresh_le r 40 k, refreshLoopAux_sleep_le_refresh r 40 k⟩,
    rfl, rfl, ?_⟩
  refine ⟨Ev.refresh :: (reviewLoopAux clickNever refreshFail5 238 2 7).1, ?_⟩
  have h1 : (reviewLoopAux clickNever refreshFail5 240 0 0).1 =
      Ev.sleep 90 :: Ev.clickNext :: (refreshLoop refreshFail5 0).1 ++
        (reviewLoopAux clickNever refreshFail5 239 1 6).1 :=
    congrArg Prod.fst (reviewLoopAux_step clickNever refreshFail5 239 0 0 rfl)
  have h2 : (reviewLoopAux clickNever refreshFail5 239 1 6).1 =
      Ev.sleep 90 :: Ev.clickNext :: [Ev.refresh] ++
        (reviewLoopAux clickNever refreshFail5 238 2 7).1 :=
    congrArg Prod.fst (reviewLoopAux_step clickNever refreshFail5 238 1 6 rfl)
  show Ev.clickDeploy :: (reviewLoopAux clickNever refreshFail5 240 0 0).1 = _
  rw [h1, h2]
  simp

/-- Completion-control availability `[absent, absent, absent, present]`:
the click of the completion control succeeds on the fourth attempt. -/
def click3 : Nat → Bool := fun i => decide (3 ≤ i)

/-- C3 counterexample: with availability `[absent]*3 ++ [present]` (and
every refresh succeeding at once) the loop does terminate successfully
after exactly 4 outer attempts, but it performs 3 refresh operations,
not 0: the code runs the refresh branch on every outer attempt whose
click fails. -/
theorem c3_counterexample :
    (page_review_deployment click3 refreshAlways).2 = Except.ok () ∧
    List.countP isClickNext (page_review_deployment click3 refreshAlways).1 = 4 ∧
    List.countP isRefreshEv (page_review_deployment click3 refreshAlways).1 = 3 ∧
    List.countP isRefreshEv (page_review_deployment click3 refreshAlways).1 ≠ 0 :=
  ⟨rfl, rfl, rfl, by decide⟩

/-- C3 amended: for the availability sequence `[absent]*3 ++ [present]`
the loop terminates successfully after exactly 4 outer polling attempts
and performs 0 failed refresh retries; it does perform one (immediately
successful) refresh operation per failed outer attempt, 3 in all. -/
theorem c3_amended_four_attempts :
    (page_review_deployment click3 refreshAlways).2 = Except.ok () ∧
    List.countP isClickNext (page_review_deployment click3 refreshAlways).1 = 4 ∧
    List.countP isSleep15 (page_review_deployment click3 refreshAlways).1 = 0 ∧
    List.countP isRefreshEv (page_review_deployment click3 refreshAlways).1 = 3 :=
  ⟨rfl, rfl, rfl, rfl⟩

/-! ### Dynamic locator interpolation, robottelo/ui/rhci.py lines 12-17

`interp_loc(locator_name, interpolate_string)` looks the name up in the
`locators` registry (a mapping defined in robottelo/ui/locators.py,
outside the sampled files, so the registry is a parameter here), coerces
a falsey interpolation value to the empty string
(`interpolate_string = interpolate_string or ''`), and returns the pair
of the registered strategy and the registered expression with the value
substituted for its `%s` placeholder (Python `%` formatting; the
registry's expressions carry one placeholder). -/

/-- Python `interpolate_string or ''` for an optional string: `None` and
the empty string are falsey and yield `''`. -/
def pyOr (v : Option String) : String :=
  match v with
  | none => ""
  | some s => if s = "" then "" else s

/-- Substitute `val` for the first `%s` placeholder of a character list. -/
def substFirst : List Char → List Char → List Char
  | [], _ => []
  | '%' :: 's' :: rest, val => val ++ rest
  | c :: rest, val => c :: substFirst rest val

/-- Python `fmt % val` for a format string with a `%s` placeholder. -/
def pyInterp (fmt val : String) : String :=
  String.mk (substFirst fmt.data val.data)

/-- `interp_loc`: `none` models a name missing from the registry (a
`KeyError` in the source). -/
def interp_loc (locators : String → Option (String × String))
    (locator_name : String) (interpolate_string : Option String) :
    Option (String × String) :=
  match locators locator_name with
  | none => none
  | some loc => some (loc.1, pyInterp loc.2 (pyOr interpolate_string))

/-- C9: for every locator name present in the registry and every
interpolation value, `interp_loc` returns the registered strategy
unchanged paired with the registered expression with the value
substituted, the empty string being substituted when the value is `None`
or otherwise falsey. -/
theorem c9_interp_loc_strategy_preserved
    (locators : String → Option (String × String))
    (locator_name : String) (interpolate_string : Option String) :
    interp_loc locators locator_name interpolate_string =
      (locators locator_name).map
        (fun loc => (loc.1, pyInterp loc.2 (interpolate_string.getD ""))) := by
  have hpy : pyOr interpolate_string = interpolate_string.getD "" := by
    cases interpolate_string with
    | none => rfl
    | some s => by_cases h : s = "" <;> simp [pyOr, h]
  cases h : locators locator_name <;> simp [interp_loc, h, hpy]

/-- A one-entry locator registry for concrete evaluation. -/
def locRegistry : String → Option (String × String) :=
  fun n => if n = "rhci.env_path" then some ("xpath", "//li(%s)/a") else none

theorem c9_witness :
    interp_loc locRegistry "rhci.env_path" (some "env1") =
      some ("xpath", "//li(env1)/a") ∧
    interp_loc locRegistry "rhci.env_path" none = some ("xpath", "//li()/a") := by
  constructor
  · rw [c9_interp_loc_strategy_preserved locRegistry "rhci.env_path" (some "env1")]
    rfl
  · rw [c9_interp_loc_strategy_preserved locRegistry "rhci.env_path" none]
    rfl

/-! ### The content page-object layer, lib/content.py

`content.select_content_provider` (lines 38-66) hovers over the provider
link and clicks the requested provider type; a `WebDriverException` from
the native interaction is caught and recovered by `driver.get` of a
fallback URL chosen by substring tests on the provider type, in order:
"custom" keeps `driver.current_url`, "redhat" appends `/redhat_provider`
to it, "filters" appends `/filters` to `base_url`, anything else appends
`/gpg_keys` to `base_url`.  A `NoSuchElementException` becomes an
`asserts.fail`; a failed `asserts.fail_if_none` (an `AssertionError`) is
not caught by either handler and propagates. -/

/-- Whether the character list `sub` occurs contiguously in `hay`
(Python's `sub in hay`), via a prefix test at each position. -/
def isPrefixOfL : List Char → List Char → Bool
  | [], _ => true
  | _ :: _, [] => false
  | a :: as, b :: bs => a == b && isPrefixOfL as bs

def containsSub : List Char → List Char → Bool
  | [], sub => sub.isEmpty
  | c :: rest, sub => isPrefixOfL sub (c :: rest) || containsSub rest sub

/-- Python's `sub in s` on strings. -/
def strContains (s sub : String) : Bool := containsSub s.data sub.data

/-- The fallback URL computed in the `WebDriverException` handler
(content.py lines 54-62). -/
def fallbackUrl (content_provider_type current_url base_url : String) : String :=
  if strContains content_provider_type "custom" then current_url
  else if strContains content_provider_type "redhat" then
    current_url ++ "/redhat_provider"
  else if strContains content_provider_type "filters" then
    base_url ++ "/filters"
  else base_url ++ "/gpg_keys"

/-- Outcome of one native driver interaction. -/
inductive NativeOutcome
  | ok
  | webDriverFault (msg : String)
  | noSuchElement
deriving DecidableEq

/-- What `select_content_provider` ends in. -/
inductive SelectResult
  | clicked
  | fallbackNavigated (url : String)
  | assertionFailure (msg : String)
  | testFailure (msg : String)
deriving DecidableEq

/-- `content.select_content_provider`, parameterized by the outcome of
`hover.perform()`, whether the provider element is found by the wait, and
the outcome of `provider.click()`.  (The quotes around the type name in
the source's failure message are omitted here.) -/
def select_content_provider (performOutcome : NativeOutcome) (providerFound : Bool)
    (clickOutcome : NativeOutcome) (t cur base : String) : SelectResult :=
  match performOutcome with
  | NativeOutcome.webDriverFault _ => SelectResult.fallbackNavigated (fallbackUrl t cur base)
  | NativeOutcome.noSuchElement =>
    SelectResult.testFailure ("Could not select the " ++ t ++ " content type")
  | NativeOutcome.ok =>
    if providerFound then
      match clickOutcome with
      | NativeOutcome.webDriverFault _ =>
        SelectResult.fallbackNavigated (fallbackUrl t cur base)
      | NativeOutcome.noSuchElement =>
        SelectResult.testFailure ("Could not select the " ++ t ++ " content type")
      | NativeOutcome.ok => SelectResult.clicked
    else SelectResult.assertionFailure "Could not locate the content provider type."

/-- C5: a driver-level fault (`WebDriverException`) raised by the native
hover/click interaction never propagates out of
`select_content_provider`: the operation recovers by navigating directly
to the URL determined by the provider type, where the custom type keeps
the current URL, the redhat type appends `/redhat_provider` to the
current URL, the filters type appends `/filters` to the base URL, and any
other type appends `/gpg_keys` to the base URL (the type tests are
substring tests, in that order of precedence, as in the source). -/
theorem c5_webdriver_fault_fallback (performOutcome : NativeOutcome)
    (providerFound : Bool) (clickOutcome : NativeOutcome)
    (t cur base m : String)
    (hfault : performOutcome = NativeOutcome.webDriverFault m ∨
      (performOutcome = NativeOutcome.ok ∧ providerFound = true ∧
        clickOutcome = NativeOutcome.webDriverFault m)) :
    select_content_provider performOutcome providerFound clickOutcome t cur base =
      SelectResult.fallbackNavigated (fallbackUrl t cur base) ∧
    (strContains t "custom" = true → fallbackUrl t cur base = cur) ∧
    (strContains t "custom" = false → strContains t "redhat" = true →
      fallbackUrl t cur base = cur ++ "/redhat_provider") ∧
    (strContains t "custom" = false → strContains t "redhat" = false →
      strContains t "filters" = true → fallbackUrl t cur base = base ++ "/filters") ∧
    (strContains t "custom" = false → strContains t "redhat" = false →
      strContains t "filters" = false → fallbackUrl t cur base = base ++ "/gpg_keys") := by
  refine ⟨?_, ?_, ?_, ?_, ?_⟩
  · rcases hfault with h | ⟨h1, h2, h3⟩
    · rw [h]; rfl
    · rw [h1, h2, h3]; rfl
  · intro h1; simp [fallbackUrl, h1]
  · intro h1 h2; simp [fallbackUrl, h1, h2]
  · intro h1 h2 h3; simp [fallbackUrl, h1, h2, h3]
  · intro h1 h2 h3; simp [fallbackUrl, h1, h2, h3]

theorem c5_witness :
    select_content_provider (NativeOutcome.webDriverFault "native fault") true
        NativeOutcome.ok "custom" "http://sat/providers" "http://sat" =
      SelectResult.fallbackNavigated
        (fallbackUrl "custom" "http://sat/providers" "http://sat") ∧
    fallbackUrl "custom" "http://sat/providers" "http://sat" = "http://sat/providers" := by
  have h := c5_webdriver_fault_fallback (NativeOutcome.webDriverFault "native fault")
    true NativeOutcome.ok "custom" "http://sat/providers" "http://sat" "native fault"
    (Or.inl rfl)
  exact ⟨h.1, h.2.1 (by decide)⟩

/-! ### content.delete_custom_provider, lib/content.py lines 146-172

The operation asserts the Content tab, selects the custom provider type,
looks the provider row up and asserts it, clicks it, waits for the remove
link (`PROVIDER_REMOVE_LINK % provider_id`) and clicks it WITHOUT an
`asserts.fail_if_none` in between (lines 161-162), waits for and asserts
the Yes button, clicks it, then revisits the provider list and asserts
the provider is gone.  `wait_until_element` returns `None` on timeout, so
clicking the unasserted remove link when it is absent is `None.click()`:
an `AttributeError` (a null-reference fault), not a named failure. -/

/-- An interaction of a content-layer operation. -/
inductive CEv
  | waited (locator : String)
  | clickedEl (locator : String)
deriving DecidableEq

/-- How a content-layer operation ends: normally, with a named
descriptive assertion failure, or with a null-reference fault from
interacting with an absent (`None`) element. -/
inductive CResult
  | ok
  | namedFailure (msg : String)
  | nullDeref
deriving DecidableEq

/-- The browser outcomes `delete_custom_provider` depends on. -/
structure ContentEnv where
  /-- `go_to_content_tab()` succeeded. -/
  tabOk : Bool
  /-- `select_content_provider(CUSTOM_PROVIDERS)` completed. -/
  selectOk : Bool
  /-- Provider id found for the name on the first lookup, if any. -/
  providerBefore : Option String
  /-- The remove link is present when waited for. -/
  removeLinkFound : Bool
  /-- The Yes confirmation button is present when waited for. -/
  yesButtonFound : Bool
  /-- Provider id found for the name after the deletion, if any. -/
  providerAfter : Option String

/-- `content.delete_custom_provider`, returning the element interactions
performed and the result.  (Quotes inside source messages are omitted.) -/
def delete_custom_provider (env : ContentEnv) (provider_name : String) :
    List CEv × CResult :=
  if ¬ env.tabOk then
    ([], CResult.namedFailure "Could not access the Content Management tab.")
  else if ¬ env.selectOk then
    ([], CResult.namedFailure "Could not select the custom content type")
  else
    match env.providerBefore with
    | none =>
      ([], CResult.namedFailure
        ("Could not locate the " ++ provider_name ++ " provider."))
    | some pid =>
      let tr1 := [CEv.clickedEl ("provider " ++ pid),
                  CEv.waited ("PROVIDER_REMOVE_LINK % " ++ pid)]
      if env.removeLinkFound then
        let tr2 := tr1 ++ [CEv.clickedEl ("PROVIDER_REMOVE_LINK % " ++ pid),
                           CEv.waited "YES_BUTTON"]
        if env.yesButtonFound then
          let tr3 := tr2 ++ [CEv.clickedEl "YES_BUTTON"]
          match env.providerAfter with
          | some _ => (tr3, CResult.namedFailure "Found a provider with that name already.")
          | none => (tr3, CResult.ok)
        else (tr2, CResult.namedFailure "Could not find the Yes button to remove role.")
      else (tr1, CResult.nullDeref)

/-- The environment on which the missing assertion matters: everything is
normal except that the remove link never appears. -/
def absentRemoveLinkEnv : ContentEnv :=
  { tabOk := true, selectOk := true, providerBefore := some "39",
    removeLinkFound := false, yesButtonFound := true, providerAfter := none }

/-- C6 (failing input): in `delete_custom_provider` the remove link
obtained by a wait is clicked with no non-absence assertion in between
(content.py lines 161-162), so when that element is absent the operation
ends in a null-reference fault — which no message can make a named
not-found failure — after the wait, contradicting the contract that every
required element obtained by a wait is asserted before any interaction. -/
theorem c6_delete_remove_link_null_deref :
    (delete_custom_provider absentRemoveLinkEnv "prov1").2 = CResult.nullDeref ∧
    (delete_custom_provider absentRemoveLinkEnv "prov1").1 =
      [CEv.clickedEl "provider 39", CEv.waited "PROVIDER_REMOVE_LINK % 39"] ∧
    (∀ msg, CResult.nullDeref ≠ CResult.namedFailure msg) :=
  ⟨rfl, rfl, fun _ h => nomatch h⟩

/-! ### Wizard pages with optional confirmation fields,
robottelo/ui/rhci.py lines 167-182 and 202-215

`_page_rhev_configuration` and `_page_cloudforms_configuration` probe
optional confirm-password fields with `wait_until_element(..., timeout=5)`
used as a plain boolean (a non-fatal existence check): when the field is
absent the step is skipped and the page goes on to click `rhci.next`;
when present the same value entered into the primary field is entered
into it.  Elements are identified here by their registry key (the
`locators[...]` name); presence is an oracle `present`. -/

/-- An interaction of a wizard page: a (possibly timeout-bounded)
existence wait, a `text_field_update`, or a click. -/
inductive REv
  | waited (name : String) (timeout : Option Nat)
  | entered (name : String) (text : String)
  | clickedEl (name : String)
deriving DecidableEq

/-- `RHCI._page_rhev_configuration` (rhci.py lines 167-182). -/
def page_rhev_configuration (present : String → Bool) (rhevm_adminpass : String)
    (datacenter_name cluster_name cpu_type : Option String) : List REv :=
  [REv.waited "rhci.rhev_root_pass" none] ++
  (if present "rhci.rhev_root_pass" then
    [REv.entered "rhci.rhev_root_pass" rhevm_adminpass,
     REv.waited "rhci.confirm_rhev_root_pass" (some 5)] ++
    (if present "rhci.confirm_rhev_root_pass" then
      [REv.entered "rhci.confirm_rhev_root_pass" rhevm_adminpass] else []) ++
    [REv.entered "rhci.rhevm_adminpass" rhevm_adminpass,
     REv.waited "rhci.confirm_rhevm_adminpass" (some 5)] ++
    (if present "rhci.confirm_rhevm_adminpass" then
      [REv.entered "rhci.confirm_rhevm_adminpass" rhevm_adminpass] else []) ++
    (match datacenter_name with
     | some d => [REv.entered "rhci.datacenter_name" d]
     | none => []) ++
    (match cluster_name with
     | some c => [REv.entered "rhci.cluster_name" c]
     | none => []) ++
    (match cpu_type with
     | some c => [REv.entered "rhci.cpu_type" c]
     | none => [])
  else []) ++
  [REv.clickedEl "rhci.next"]

/-- `RHCI._page_cloudforms_configuration` (rhci.py lines 202-215). -/
def page_cloudforms_configuration (present : String → Bool)
    (cfme_root_password cfme_admin_password : String) : List REv :=
  [REv.waited "rhci.cfme_install_on" none] ++
  (if present "rhci.cfme_install_on" then [REv.clickedEl "rhci.cfme_install_on"] else []) ++
  [REv.clickedEl "rhci.next",
   REv.waited "rhci.cfme_root_password" none,
   REv.entered "rhci.cfme_root_password" cfme_root_password,
   REv.waited "rhci.confirm_cfme_root_password" (some 5)] ++
  (if present "rhci.confirm_cfme_root_password" then
    [REv.entered "rhci.confirm_cfme_root_password" cfme_root_password] else []) ++
  [REv.entered "rhci.cfme_admin_password" cfme_admin_password,
   REv.waited "rhci.confirm_cfme_admin_password" (some 5)] ++
  (if present "rhci.confirm_cfme_admin_password" then
    [REv.entered "rhci.confirm_cfme_admin_password" cfme_admin_password] else []) ++
  [REv.clickedEl "rhci.next"]

/-- An interaction (entry or click, not a bare existence wait) touching
the element named `name`. -/
def interactsWith (name : String) : REv → Bool
  | REv.entered n _ => n == name
  | REv.clickedEl n => n == name
  | REv.waited _ _ => false

/-- The non-fatal existence check of the element named `name` under
timeout `t`. -/
def isWaitOn (name : String) (t : Option Nat) : REv → Bool
  | REv.waited n t2 => n == name && t2 == t
  | _ => false

/-- C7: confirmation fields are handled with a non-fatal existence check
under a short 5-second timeout and a conditional branch: the page probes
the confirm field with a bounded wait (whenever the enclosing step runs at
all), interacts with the confirm field exactly when it is present — and
then enters into it the very value entered into the primary field — and
in every case continues on to click the next control, raising no
failure. -/
theorem c7_optional_confirmation_fields (present : String → Bool)
    (pass root admin : String) (dc cl cpu : Option String) :
    ((page_rhev_configuration present pass dc cl cpu).filter
        (isWaitOn "rhci.confirm_rhev_root_pass" (some 5)) =
      if present "rhci.rhev_root_pass" then
        [REv.waited "rhci.confirm_rhev_root_pass" (some 5)] else []) ∧
    ((page_rhev_configuration present pass dc cl cpu).filter
        (interactsWith "rhci.confirm_rhev_root_pass") =
      if present "rhci.rhev_root_pass" && present "rhci.confirm_rhev_root_pass" then
        [REv.entered "rhci.confirm_rhev_root_pass" pass] else []) ∧
    ((page_rhev_configuration present pass dc cl cpu).filter
        (interactsWith "rhci.confirm_rhevm_adminpass") =
      if present "rhci.rhev_root_pass" && present "rhci.confirm_rhevm_adminpass" then
        [REv.entered "rhci.confirm_rhevm_adminpass" pass] else []) ∧
    REv.clickedEl "rhci.next" ∈ page_rhev_configuration present pass dc cl cpu ∧
    ((page_cloudforms_configuration present root admin).filter
        (isWaitOn "rhci.confirm_cfme_root_password" (some 5)) =
      [REv.waited "rhci.confirm_cfme_root_password" (some 5)]) ∧
    ((page_cloudforms_configuration present root admin).filter
        (interactsWith "rhci.confirm_cfme_root_password") =
      if present "rhci.confirm_cfme_root_password" then
        [REv.entered "rhci.confirm_cfme_root_password" root] else []) ∧
    ((page_cloudforms_configuration present root admin).filter
        (interactsWith "rhci.confirm_cfme_admin_password") =
      if present "rhci.confirm_cfme_admin_password" then
        [REv.entered "rhci.confirm_cfme_admin_password" admin] else []) ∧
    REv.clickedEl "rhci.next" ∈ page_cloudforms_configuration present root admin := by
  have hfull : ∀ goal : Prop,
      ((present "rhci.rhev_root_pass" = true ∨ present "rhci.rhev_root_pass" = false) →
       (present "rhci.confirm_rhev_root_pass" = true ∨
         present "rhci.confirm_rhev_root_pass" = false) →
       (present "rhci.confirm_rhevm_adminpass" = true ∨
         present "rhci.confirm_rhevm_adminpass" = false) → goal) → goal := by
    intro goal h
    exact h (Bool.eq_false_or_eq_true _) (Bool.eq_false_or_eq_true _)
      (Bool.eq_false_or_eq_true _)
  refine ⟨?_, ?_, ?_, ?_, ?_, ?_, ?_, ?_⟩
  · refine hfull _ fun h1 h2 h3 => ?_
    rcases h1 with h1 | h1 <;> rcases h2 with h2 | h2 <;> rcases h3 with h3 | h3 <;>
      cases dc <;> cases cl <;> cases cpu <;>
      simp +decide [page_rhev_configuration, isWaitOn, h1, h2, h3, List.filter_append]
  · refine hfull _ fun h1 h2 h3 => ?_
    rcases h1 with h1 | h1 <;> rcases h2 with h2 | h2 <;> rcases h3 with h3 | h3 <;>
      cases dc <;> cases cl <;> cases cpu <;>
      simp +decide [page_rhev_configuration, interactsWith, h1, h2, h3, List.filter_append]
  · refine hfull _ fun h1 h2 h3 => ?_
    rcases h1 with h1 | h1 <;> rcases h2 with h2 | h2 <;> rcases h3 with h3 | h3 <;>
      cases dc <;> cases cl <;> cases cpu <;>
      simp +decide [page_rhev_configuration, interactsWith, h1, h2, h3, List.filter_append]
  · simp [page_rhev_configuration]
  · rcases Bool.eq_false_or_eq_true (present "rhci.cfme_install_on") with h4 | h4 <;>
      rcases Bool.eq_false_or_eq_true (present "rhci.confirm_cfme_root_password") with h5 | h5 <;>
      rcases Bool.eq_false_or_eq_true (present "rhci.confirm_cfme_admin_password") with h6 | h6 <;>
      simp +decide [page_cloudforms_configuration, isWaitOn, h4, h5, h6, List.filter_append]
  · rcases Bool.eq_false_or_eq_true (present "rhci.cfme_install_on") with h4 | h4 <;>
      rcases Bool.eq_false_or_eq_true (present "rhci.confirm_cfme_root_password") with h5 | h5 <;>
      rcases Bool.eq_false_or_eq_true (present "rhci.confirm_cfme_admin_password") with h6 | h6 <;>
      simp +decide [page_cloudforms_configuration, interactsWith, h4, h5, h6, List.filter_append]
  · rcases Bool.eq_false_or_eq_true (present "rhci.cfme_install_on") with h4 | h4 <;>
      rcases Bool.eq_false_or_eq_true (present "rhci.confirm_cfme_root_password") with h5 | h5 <;>
      rcases Bool.eq_false_or_eq_true (present "rhci.confirm_cfme_admin_password") with h6 | h6 <;>
      simp +decide [page_cloudforms_configuration, interactsWith, h4, h5, h6, List.filter_append]
  · simp [page_cloudforms_configuration]

/-! ### The GPGKey CLI wrapper, robottelo/cli/gpgkey.py lines 36-74

`GPGKey.list(organization_id, options=None)` defaults a missing options
mapping to `{'per-page': 10000}`, always sets
`options['organization-id']`, and executes `hammer gpg list` with CSV
parsing, giving a result whose stdout is the parsed list of records.
`GPGKey.exists(organization_id, tuple_search=None)` builds an options
mapping (adding `search = '<key>:"<value>"'` when a tuple is given),
calls `list` with it, and when `result.stdout` is non-empty replaces it
with its first record.

Python dicts with string keys are modelled as association lists with
overwrite-or-append assignment; the external `hammer` execution is an
oracle from the final options to the parsed CSV rows, stderr and return
code. -/

/-- A CLI option value: a string or an integer. -/
inductive OptVal
  | str (s : String)
  | num (n : Int)
deriving DecidableEq

/-- An options mapping (Python dict of option name to value). -/
abbrev Options := List (String × OptVal)

/-- Python dict assignment `o[k] = v`: overwrite the existing key or
append a new entry. -/
def setOpt : Options → String → OptVal → Options
  | [], k, v => [(k, v)]
  | (k', v') :: rest, k, v =>
    if k' = k then (k, v) :: rest else (k', v') :: setOpt rest k v

/-- Python dict lookup `o.get(k)`. -/
def lookupOpt (k : String) : Options → Option OptVal
  | [] => none
  | (k', v) :: rest => if k' = k then some v else lookupOpt k rest

theorem lookupOpt_setOpt_self (o : Options) (k : String) (v : OptVal) :
    lookupOpt k (setOpt o k v) = some v := by
  induction o with
  | nil => simp [setOpt, lookupOpt]
  | cons e rest ih =>
    by_cases hk : e.1 = k <;> simp [setOpt, lookupOpt, hk, ih]

theorem lookupOpt_setOpt_ne (o : Options) (k k' : String) (v : OptVal)
    (h : k' ≠ k) : lookupOpt k (setOpt o k' v) = lookupOpt k o := by
  induction o with
  | nil => simp [setOpt, lookupOpt, h]
  | cons e rest ih =>
    obtain ⟨a, b⟩ := e
    by_cases hk : a = k'
    · subst hk
      simp [setOpt, lookupOpt, h]
    · by_cases hk2 : a = k
      · subst hk2
        simp [setOpt, lookupOpt, hk]
      · simp [setOpt, lookupOpt, hk, hk2, ih]

/-- A CSV record parsed from one row of the tool's output. -/
abbrev CsvRec := List (String × String)

/-- What stdout holds after a CLI call: the parsed row list, or (after
the `exists` head-taking) a single record. -/
inductive Stdout
  | rows (rs : List CsvRec)
  | row (r : CsvRec)
deriving DecidableEq

/-- How many records the stdout value holds. -/
def stdoutCount : Stdout → Nat
  | Stdout.rows rs => rs.length
  | Stdout.row _ => 1

/-- What the external `hammer` execution returns for a CSV-parsed call. -/
structure ExecOut where
  csv : List CsvRec
  errs : List String
  return_code : Nat

/-- A CLI command result (robottelo's `result` object). -/
structure CommandResult where
  return_code : Nat
  stdout : Stdout
  errs : List String
deriving DecidableEq

namespace GPGKey

/-- The final options `GPGKey.list` passes to the executed command
(gpgkey.py lines 65-70): default `per-page = 10000` only when the caller
passed no mapping, then always set `organization-id`. -/
def listOptions (organization_id : OptVal) (options : Option Options) : Options :=
  match options with
  | none => setOpt (setOpt [] "per-page" (OptVal.num 10000)) "organization-id" organization_id
  | some o => setOpt o "organization-id" organization_id

/-- `GPGKey.list` (gpgkey.py lines 57-74). -/
def list (execute : Options → ExecOut) (organization_id : OptVal)
    (options : Option Options) : CommandResult :=
  let out := execute (listOptions organization_id options)
  { return_code := out.return_code, stdout := Stdout.rows out.csv, errs := out.errs }

/-- The options mapping `GPGKey.exists` builds (gpgkey.py lines 43-47):
empty, plus `search = '<key>:"<value>"'` when a search tuple is given. -/
def existsOptionsOf (tuple_search : Option (String × String)) : Options :=
  match tuple_search with
  | none => []
  | some t => setOpt [] "search" (OptVal.str (t.1 ++ ":\"" ++ t.2 ++ "\""))

/-- `GPGKey.exists` (gpgkey.py lines 36-55): run `list` with the built
mapping and, when stdout is non-empty, replace it with its first
record. -/
def existsQ (execute : Options → ExecOut) (organization_id : OptVal)
    (tuple_search : Option (String × String)) : CommandResult :=
  let result := list execute organization_id (some (existsOptionsOf tuple_search))
  match result.stdout with
  | Stdout.rows (r :: _) => { result with stdout := Stdout.row r }
  | _ => result

end GPGKey

/-- C4: for every organization id and optional search tuple (and every
behaviour of the external tool), `GPGKey.exists` returns at most one
record: its stdout is the first record of the underlying `list` output
when that output is non-empty and stays the empty row list otherwise, and
the search filter it applies when a tuple is given is the option
`search = key:"value"`. -/
theorem c4_exists_at_most_one_record (execute : Options → ExecOut)
    (org : OptVal) (ts : Option (String × String)) :
    stdoutCount (GPGKey.existsQ execute org ts).stdout ≤ 1 ∧
    (GPGKey.existsQ execute org ts).stdout =
      (match (execute (GPGKey.listOptions org (some (GPGKey.existsOptionsOf ts)))).csv with
       | [] => Stdout.rows []
       | r :: _ => Stdout.row r) ∧
    lookupOpt "search" (GPGKey.existsOptionsOf ts) =
      (match ts with
       | none => none
       | some t => some (OptVal.str (t.1 ++ ":\"" ++ t.2 ++ "\""))) := by
  refine ⟨?_, ?_, ?_⟩
  · cases hcsv : (execute (GPGKey.listOptions org (some (GPGKey.existsOptionsOf ts)))).csv <;>
      simp [GPGKey.existsQ, GPGKey.list, hcsv, stdoutCount]
  · cases hcsv : (execute (GPGKey.listOptions org (some (GPGKey.existsOptionsOf ts)))).csv <;>
      simp [GPGKey.existsQ, GPGKey.list, hcsv]
  · cases ts <;> simp [GPGKey.existsOptionsOf, lookupOpt, setOpt]

/-- A concrete tool behaviour and records for evaluating C4. -/
def execTwoRows : Options → ExecOut :=
  fun _ => { csv := [[("name", "key1")], [("name", "key2")]], errs := [], return_code := 0 }

theorem c4_witness :
    (GPGKey.existsQ execTwoRows (OptVal.num 1) (some ("name", "key1"))).stdout =
      Stdout.row [("name", "key1")] ∧
    stdoutCount (GPGKey.existsQ execTwoRows (OptVal.num 1) (some ("name", "key1"))).stdout ≤ 1 := by
  have h := c4_exists_at_most_one_record execTwoRows (OptVal.num 1) (some ("name", "key1"))
  exact ⟨h.2.1, h.1⟩

/-- C8: the options `GPGKey.list` passes to the executed command always
hold `organization-id` set to the given organization id; the
`per-page = 10000` pagination default is added by the code exactly when
the caller passes no options mapping — when a mapping is passed, the
final `per-page` entry is whatever the caller's mapping held — and
`GPGKey.exists` always passes a (possibly empty) mapping, which never
holds `per-page`, so the default is never applied on the exists path. -/
theorem c8_list_option_defaults (org : OptVal) (opts : Option Options)
    (m : Options) (ts : Option (String × String)) :
    lookupOpt "organization-id" (GPGKey.listOptions org opts) = some org ∧
    lookupOpt "per-page" (GPGKey.listOptions org none) = some (OptVal.num 10000) ∧
    lookupOpt "per-page" (GPGKey.listOptions org (some m)) = lookupOpt "per-page" m ∧
    lookupOpt "per-page" (GPGKey.listOptions org (some (GPGKey.existsOptionsOf ts))) = none := by
  have hne : "organization-id" ≠ "per-page" := by decide
  refine ⟨?_, ?_, ?_, ?_⟩
  · cases opts <;> simp [GPGKey.listOptions, lookupOpt_setOpt_self]
  · show lookupOpt "per-page"
      (setOpt (setOpt [] "per-page" (OptVal.num 10000)) "organization-id" org) = _
    rw [lookupOpt_setOpt_ne _ _ _ _ hne, lookupOpt_setOpt_self]
  · show lookupOpt "per-page" (setOpt m "organization-id" org) = _
    rw [lookupOpt_setOpt_ne _ _ _ _ hne]
  · show lookupOpt "per-page" (setOpt (GPGKey.existsOptionsOf ts) "organization-id" org) = _
    rw [lookupOpt_setOpt_ne _ _ _ _ hne]
    cases ts <;> simp [GPGKey.existsOptionsOf, lookupOpt, setOpt]

/-! ### The data factory, robottelo/datafactory.py lines 12-124

`invalid_values_list(interface=None)` raises `InvalidArgumentError`
unless `interface` is `'api'`, `'cli'`, `'ui'` or `None`; for `'ui'` it
returns `['', ' ']` plus `invalid_names_list()`, otherwise
`['', ' ', '\t']` plus `invalid_names_list()`.  The `@datacheck`
decorator passes an error through and, when the smoke-test setting
`settings.run_one_datapoint` is true (its documented default is false),
collapses a returned dataset to one randomly chosen element.  The
randomly generated `invalid_names_list()` result and the random choice
are oracles. -/

/-- The error type of `InvalidArgumentError`. -/
inductive DataError
  | invalidArgument (msg : String)
deriving DecidableEq

/-- The undecorated body of `invalid_values_list` (datafactory.py lines
117-124), with the generated invalid-names list as an oracle. -/
def invalid_values_list_body (invalid_names : List String)
    (interface : Option String) : Except DataError (List String) :=
  if interface ∉ ([some "api", some "cli", some "ui", none] : List (Option String)) then
    Except.error (DataError.invalidArgument "Valid interface values are api, cli, ui only")
  else if interface = some "ui" then Except.ok (["", " "] ++ invalid_names)
  else Except.ok (["", " ", "\t"] ++ invalid_names)

/-- The `@datacheck` wrapper (datafactory.py lines 16-30): errors
propagate; when `run_one_datapoint` is set a dataset collapses to one
chosen element. -/
def datacheck (run_one_datapoint : Bool) (choose : List String → String)
    (dataset : Except DataError (List String)) : Except DataError (List String) :=
  match dataset with
  | Except.error e => Except.error e
  | Except.ok ds => if run_one_datapoint then Except.ok [choose ds] else Except.ok ds

/-- The decorated `invalid_values_list`. -/
def invalid_values_list (run_one_datapoint : Bool) (choose : List String → String)
    (invalid_names : List String) (interface : Option String) :
    Except DataError (List String) :=
  datacheck run_one_datapoint choose (invalid_values_list_body invalid_names interface)

/-- Whether the call raised. -/
def raisedError : Except DataError (List String) → Bool
  | Except.error _ => true
  | Except.ok _ => false

/-- C10: `invalid_values_list` raises `InvalidArgumentError` exactly when
its interface argument is none of `'api'`, `'cli'`, `'ui'`, `None`
(whatever the smoke-test sampling setting); and — under the documented
default `run_one_datapoint = false` — interface `'ui'` yields
`['', ' ']` followed by the invalid-names list while `'api'`, `'cli'` and
`None` yield `['', ' ', '\t']` followed by the invalid-names list. -/
theorem c10_invalid_values_list (ropd : Bool) (choose : List String → String)
    (invalid_names : List String) (interface : Option String) :
    raisedError (invalid_values_list ropd choose invalid_names interface) =
      decide (interface ∉ ([some "api", some "cli", some "ui", none] : List (Option String))) ∧
    invalid_values_list false choose invalid_names (some "ui") =
      Except.ok (["", " "] ++ invalid_names) ∧
    invalid_values_list false choose invalid_names (some "api") =
      Except.ok (["", " ", "\t"] ++ invalid_names) ∧
    invalid_values_list false choose invalid_names (some "cli") =
      Except.ok (["", " ", "\t"] ++ invalid_names) ∧
    invalid_values_list false choose invalid_names none =
      Except.ok (["", " ", "\t"] ++ invalid_names) := by
  refine ⟨?_, ?_, ?_, ?_, ?_⟩
  · by_cases hin : interface ∈ ([some "api", some "cli", some "ui", none] : List (Option String))
    · by_cases hui : interface = some "ui" <;> cases ropd <;>
        simp [invalid_values_list, invalid_values_list_body, datacheck, raisedError, hin, hui]
    · simp [invalid_values_list, invalid_values_list_body, datacheck, raisedError, hin]
  · simp +decide [invalid_values_list, invalid_values_list_body, datacheck]
  · simp +decide [invalid_values_list, invalid_values_list_body, datacheck]
  · simp +decide [invalid_values_list, invalid_values_list_body, datacheck]
  · simp +decide [invalid_values_list, invalid_values_list_body, datacheck]

end Robottelo
